import Mathlib

/-!
Shallow embedding of `src/main.py` of the cville-travel-companion-backend
repository: the tool-calling orchestration loop (`chat`), the data
aggregators (`get_breweries`, `get_restaurants`), the external places
connectors, the tap-list summarizer, and the session store.

External effects (the places HTTP request, the headless browser, the
OpenAI completion API) are modelled as oracle values/functions supplied
as explicit parameters; a Python exception raised by an oracle step is an
`Except.error` carrying the exception's string form.  Python dicts with
optional keys become structures with `Option` fields (`none` = key absent
or value `None`).
-/

/-- Coordinates carried in the request's `location` dict (`lat`/`lng`).
Numeric values are modelled as rationals. -/
structure Location where
  lat : Rat
  lng : Rat
deriving DecidableEq, Repr

/-- Request body of the `/chat` endpoint (`ChatRequest` in main.py):
`message: str`, `location: Optional[dict]`. -/
structure ChatRequest where
  message : String
  location : Option Location := none
deriving DecidableEq, Repr

/-- Checks whether `pat` is a leading segment of `l` (character lists). -/
def leadsWith : List Char → List Char → Bool
  | [], _ => true
  | _ :: _, [] => false
  | a :: as, b :: bs => a = b && leadsWith as bs

/-- Checks whether `pat` occurs contiguously inside `l` (character lists). -/
def occursWithin : List Char → List Char → Bool
  | pat, [] => pat.isEmpty
  | pat, c :: rest => leadsWith pat (c :: rest) || occursWithin pat rest

/-- Python's `needle in hay` substring test on strings. -/
def strContains (hay needle : String) : Bool :=
  occursWithin needle.toList hay.toList

/-- Python's `str.lower()` over the characters of a string (the data in
this system is ASCII, where `Char.toLower` and Python agree). -/
def lowerChars (l : List Char) : List Char :=
  l.map Char.toLower

/-- Python's `needle.lower() in hay.lower()` case-insensitive substring test,
used by the name filter of `get_breweries` (line 256 of main.py). -/
def strContainsCI (hay needle : String) : Bool :=
  occursWithin (lowerChars needle.toList) (lowerChars hay.toList)

/-- One place record of a Google Places response (`place.get(...)` lookups:
every key may be absent, hence `Option` fields). -/
structure PlaceRec where
  name : Option String := none
  vicinity : Option String := none
  rating : Option Rat := none
  price_level : Option Rat := none
  place_id : Option String := none
deriving DecidableEq, Repr

/-- Parsed JSON body of a Google Places nearby-search response:
`data.get("status")` and `data.get("results", [])`. -/
structure PlacesResponse where
  status : String
  results : List PlaceRec := []
deriving DecidableEq, Repr

/-- An entity dict flowing through the aggregators: local-catalog brewery
records, Google Places brewery/restaurant records, and the no-location
restaurant placeholder all use this shape; a field is `none` when the
underlying dict lacks the key (or holds `None`). -/
structure Entity where
  name : Option String := none
  address : Option String := none
  rating : Option Rat := none
  price_level : Option Rat := none
  place_id : Option String := none
  meal : Option String := none
  source : Option String := none
  distance : Option Rat := none
  taplist_url : Option String := none
deriving DecidableEq, Repr

/-- Mirrors `get_google_places_breweries(lat, lng, radius)` (lines 65-101).
The oracle `resp` stands for the outcome of `requests.get(...).json()`:
`Except.error` models an exception raised by the request or JSON parsing,
which the source's `try`-block converts to `[]`. -/
def get_google_places_breweries (api_key : Option String) (lat lng : Rat)
    (resp : Except String PlacesResponse) (radius : Nat := 10000) : List Entity :=
  match api_key with
  | none => []
  | some _ =>
    let _params := (toString lat ++ "," ++ toString lng, radius, "establishment", "brewery")
    match resp with
    | .error _ => []
    | .ok data =>
      if data.status ≠ "OK" then []
      else data.results.map (fun place =>
        { name := place.name, address := place.vicinity, rating := place.rating,
          place_id := place.place_id, source := some "google_places" })

/-- Meal-to-search-parameter mapping of `get_google_places_restaurants`
(lines 110-120): result is `(place_type, keyword)`. -/
def restaurant_place_params (meal : Option String) : String × String :=
  if meal = some "lunch" then ("restaurant", "lunch restaurant cafe")
  else if meal = some "dinner" then ("restaurant", "dinner restaurant")
  else if meal = some "beer" then ("bar", "bar pub brewery")
  else ("restaurant", "")

/-- Python truthiness of the `meal` argument in `meal if meal else "general"`:
`None` and the empty string are falsy. -/
def mealOrGeneral (meal : Option String) : String :=
  match meal with
  | some m => if m = "" then "general" else m
  | none => "general"

/-- Mirrors `get_google_places_restaurants(lat, lng, meal, radius)`
(lines 103-155), with the same oracle convention as the breweries
connector. -/
def get_google_places_restaurants (api_key : Option String) (lat lng : Rat)
    (meal : Option String) (resp : Except String PlacesResponse)
    (radius : Nat := 10000) : List Entity :=
  match api_key with
  | none => []
  | some _ =>
    let _params := (toString lat ++ "," ++ toString lng, radius, restaurant_place_params meal)
    match resp with
    | .error _ => []
    | .ok data =>
      if data.status ≠ "OK" then []
      else data.results.map (fun place =>
        { name := place.name, address := place.vicinity, rating := place.rating,
          price_level := place.price_level, place_id := place.place_id,
          meal := some (mealOrGeneral meal), source := some "google_places" })

/-- Sort key of `local_breweries.sort(key=lambda x: x.get("distance", 999))`
(line 247). -/
def distKey (b : Entity) : Rat :=
  b.distance.getD 999

/-- Stable insertion of one element into a list sorted by `distKey`:
an element already in the list stays ahead of the inserted one when the
keys are equal. -/
def insertByDist (b : Entity) : List Entity → List Entity
  | [] => [b]
  | c :: cs => if distKey b ≤ distKey c then b :: c :: cs else c :: insertByDist b cs

/-- Stable sort by `distKey`, modelling Python's stable `list.sort(key=...)`
(line 247).  A stable sort's output is uniquely determined by the key
order, so this insertion sort and Python's Timsort agree extensionally. -/
def sortLocal : List Entity → List Entity
  | [] => []
  | b :: bs => insertByDist b (sortLocal bs)

/-- The name filter predicate `name.lower() in b["name"].lower()` (line 256).
A missing name never matches (the source assumes catalog and places
entries carry names). -/
def nameMatchesCI (b : Entity) (n : String) : Bool :=
  match b.name with
  | some s => strContainsCI s n
  | none => false

/-- Mirrors `get_breweries(name, location)` (lines 228-258).  `catalog` is
the list loaded from `cville_breweries.json` (empty when the file is
absent); `hav` stands for the value
`haversine_distance(lat, lng, 38.0293, -78.4767)`, which the source
computes identically for every local entry (user location to the fixed
city center), so the list structure does not depend on its value. -/
def get_breweries (name : Option String) (location : Option Location) (hav : Rat)
    (catalog : List Entity) (api_key : Option String)
    (resp : Except String PlacesResponse) : List Entity :=
  let local_breweries := catalog
  let all_breweries :=
    match location with
    | some loc =>
      let google_breweries := get_google_places_breweries api_key loc.lat loc.lng resp
      let localD := local_breweries.map (fun b : Entity => { b with distance := some hav })
      sortLocal localD ++ google_breweries
    | none => local_breweries
  let filtered :=
    match name with
    | some n =>
      if n = "" then all_breweries
      else all_breweries.filter (fun b => nameMatchesCI b n)
    | none => all_breweries
  filtered.take 15

/-- Mirrors `get_restaurants(meal, location)` (lines 260-281): with a
location, delegate to the places connector and stamp the placeholder
distance 0.5 on each result; without one, return the single
"No location provided" placeholder entry. -/
def get_restaurants (meal : Option String) (location : Option Location)
    (api_key : Option String) (resp : Except String PlacesResponse) : List Entity :=
  match location with
  | some loc =>
    let restaurants := get_google_places_restaurants api_key loc.lat loc.lng meal resp
    let withDist := restaurants.map (fun r : Entity => { r with distance := some (1/2 : Rat) })
    withDist.take 15
  | none =>
    [{ name := some "No location provided",
       address := some "Please enable location services to find nearby restaurants",
       rating := some 0,
       meal := some (mealOrGeneral meal),
       source := some "error" }]

/-- Oracle outcomes for the effectful steps of `get_taplist_summary`
(lines 158-225).  Each `Except.error` models a Python exception (its
string form `str(e)`) raised at that step; all these steps sit inside the
function's `try` block.  `extract_text` covers the BeautifulSoup body
extraction with the html2text fallback; `summarize` is the OpenAI
summarization call applied to the user-prompt string, returning the
completion's content (which may be `None`). -/
structure TapEnv where
  launch : Except String Unit
  page_content : Except String String
  extract_text : String → Except String String
  summarize : String → Except String (Option String)

/-- Result dict of `get_taplist_summary`: the `error` key is present
(`some`) only on the failure path, exactly as in the source. -/
structure TapResult where
  brewery : String
  summary : Option String
  url : String
  status : String
  error : Option String := none
deriving DecidableEq, Repr

/-- Body of the `try` block of `get_taplist_summary`: launch the browser,
render the page, extract its text, truncate to the first 400 lines, and
ask the model to summarize.  The first failing step short-circuits with
its exception, which the caller's `except` clause turns into the error
record. -/
def taplist_attempt (brewery : String) (env : TapEnv) : Except String (Option String) := do
  let _ ← env.launch
  let content ← env.page_content
  let text ← env.extract_text content
  let snippet := "\n".intercalate ((text.splitOn "\n").take 400)
  env.summarize ("Brewery: " ++ brewery ++ "\n\nPage text:\n" ++ snippet)

/-- Human-readable failure message built on the `except` path of
`get_taplist_summary` (line 221); it names the brewery and points the
user at `url` directly. -/
def taplist_error_message (brewery url : String) : String :=
  "Unable to fetch current tap list for " ++ brewery ++
    ". You might want to check their website directly at " ++ url

/-- Mirrors `get_taplist_summary(brewery, url)` (lines 158-225): every
exception raised inside the `try` block resolves to a `status="error"`
record carrying `str(e)` under `error`; nothing propagates outward. -/
def get_taplist_summary (brewery url : String) (env : TapEnv) : TapResult :=
  match taplist_attempt brewery env with
  | .ok summary =>
    { brewery := brewery, summary := summary, url := url, status := "success" }
  | .error e =>
    { brewery := brewery, summary := some (taplist_error_message brewery url),
      url := url, status := "error", error := some e }

/-- The `last_brewery` record stored in a session (lines 414-417). -/
structure LastBrewery where
  name : Option String
  url : String
deriving DecidableEq, Repr

/-- One conversation's session dict: `{}` or `{"last_brewery": {...}}`. -/
structure Session where
  last_brewery : Option LastBrewery := none
deriving DecidableEq, Repr

/-- The process-wide `session_storage` dict (line 341). -/
abbrev Storage := List (String × Session)

/-- Writes `storage[k] = v`. -/
def setStore : Storage → String → Session → Storage
  | [], k, v => [(k, v)]
  | (k', v') :: rest, k, v =>
    if k' = k then (k, v) :: rest else (k', v') :: setStore rest k v

/-- Parsed arguments of one model-requested tool call
(`json.loads(tool_call.function.arguments)`), flattened to the union of
the registry's declared parameters. -/
structure ToolArgs where
  name : Option String := none
  meal : Option String := none
  location : Option Location := none
  brewery : Option String := none
  url : Option String := none
deriving DecidableEq, Repr

/-- One tool call of a model response (`tool_call.id`,
`tool_call.function.name`, parsed arguments). -/
structure ToolCall where
  id : String
  name : String
  args : ToolArgs := {}
deriving DecidableEq, Repr

/-- Value returned by one tool handler, before `json.dumps`. -/
inductive ToolResponse where
  | breweries (items : List Entity)
  | taplist (r : TapResult)
  | restaurants (items : List Entity)
deriving DecidableEq, Repr

/-- One completion returned by the model: plain content and/or tool
calls (`response.choices[0].message`). -/
structure ModelResponse where
  content : Option String := none
  tool_calls : List ToolCall := []

/-- One entry of the `messages` list sent to the model.  The serialized
tool payload (`json.dumps(function_response)`, line 425) is modelled
structurally in `payload` rather than as a JSON string. -/
structure Msg where
  role : String
  content : Option String := none
  tool_call_id : Option String := none
  name : Option String := none
  tool_calls : List ToolCall := []
  payload : Option ToolResponse := none

/-- Renders a possibly-`None` string inside an f-string, as Python does. -/
def pyStr : Option String → String
  | some s => s
  | none => "None"

/-- The `location_context` fragment of the system prompt (lines 361-363). -/
def location_context (loc : Option Location) : String :=
  match loc with
  | some l =>
    " The user is currently at coordinates " ++ toString l.lat ++ ", " ++
      toString l.lng ++ "."
  | none => ""

/-- The `session_context` fragment of the system prompt (lines 366-369). -/
def session_context (session : Session) : String :=
  match session.last_brewery with
  | some lb =>
    " The user was just asking about " ++ pyStr lb.name ++
      ". When they say \x27there\x27, \x27that place\x27, or ask about the taplist, they are likely referring to " ++
      pyStr lb.name ++ "."
  | none => ""

/-- Full system-prompt content (line 372). -/
def systemContent (loc : Option Location) (session : Session) : String :=
  "You\x27re Sam Calagione, a beer-savvy travel assistant with a swagger and sense of humor." ++
    location_context loc ++ session_context session ++
    " When suggesting places, prioritize those near the user\x27s location. When users ask about what\x27s on tap at a specific brewery, use the get_taplist_summary function with the brewery\x27s taplist_url from your knowledge."

/-- Initial `messages` list (lines 371-374). -/
def initialMessages (req : ChatRequest) (session : Session) : List Msg :=
  [{ role := "system", content := some (systemContent req.location session) },
   { role := "user", content := some req.message }]

/-- Names registered in the `available_functions` dict (lines 284-288). -/
def available_function_names : List String :=
  ["get_breweries", "get_taplist_summary", "get_restaurants"]

/-- Uncaught Python exceptions that abort a chat run:
`available_functions[function_name]` raises `KeyError` for an unknown
name (line 396); calling a handler without a required keyword argument
raises `TypeError`. -/
inductive RunError where
  | keyError (missing : String)
  | typeError (fn : String)
deriving DecidableEq, Repr

/-- Everything the `chat` endpoint needs from its environment: the model
oracle and the oracles of every connector the tool handlers touch. -/
structure ChatEnv where
  model : List Msg → ModelResponse
  catalog : List Entity := []
  api_key : Option String := none
  breweriesResp : Except String PlacesResponse := .error "unavailable"
  restaurantsResp : Except String PlacesResponse := .error "unavailable"
  hav : Rat := 0
  tap : TapEnv :=
    { launch := .ok (), page_content := .error "unavailable",
      extract_text := fun _ => .error "unavailable",
      summarize := fun _ => .error "unavailable" }

/-- Executes one model-requested tool call (lines 391-405): look the name
up in `available_functions` (a `KeyError` crash when absent), inject the
request's location for the two location-aware handlers, and dispatch. -/
def execToolCall (env : ChatEnv) (user_location : Option Location)
    (tc : ToolCall) : Except RunError ToolResponse :=
  if available_function_names.contains tc.name then
    let args :=
      if user_location.isSome &&
          (tc.name = "get_breweries" || tc.name = "get_restaurants") then
        { tc.args with location := user_location }
      else tc.args
    if tc.name = "get_breweries" then
      .ok (.breweries (get_breweries args.name args.location env.hav env.catalog
        env.api_key env.breweriesResp))
    else if tc.name = "get_taplist_summary" then
      match args.brewery, args.url with
      | some b, some u => .ok (.taplist (get_taplist_summary b u env.tap))
      | _, _ => .error (.typeError tc.name)
    else
      .ok (.restaurants (get_restaurants args.meal args.location env.api_key
        env.restaurantsResp))
  else
    .error (.keyError tc.name)

/-- Session update performed after each tool call (lines 409-418): only a
`get_breweries` response with a non-empty result whose first entry has a
present, truthy `taplist_url` stores a `last_brewery`. -/
def updateSessionAfterTool (function_name : String) (resp : ToolResponse)
    (session : Session) : Session :=
  if function_name = "get_breweries" then
    match resp with
    | .breweries (relevant :: _) =>
      match relevant.taplist_url with
      | some u =>
        if u = "" then session
        else { session with last_brewery := some { name := relevant.name, url := u } }
      | none => session
    | _ => session
  else session

/-- The assistant turn appended before the tool results (line 388). -/
def assistantMsg (resp : ModelResponse) : Msg :=
  { role := "assistant", content := resp.content, tool_calls := resp.tool_calls }

/-- The tool-result turn appended after each call (lines 420-427). -/
def toolMsg (tc : ToolCall) (resp : ToolResponse) : Msg :=
  { role := "tool", tool_call_id := some tc.id, name := some tc.name,
    payload := some resp }

/-- Executes the tool calls of one round in order (the `for` loop of
lines 391-427), threading messages and session.  An uncaught exception
aborts the round but keeps the session mutations already applied (the
Python session dict is mutated in place). -/
def execRound (env : ChatEnv) (user_location : Option Location) :
    List ToolCall → List Msg → Session → Except RunError (List Msg) × Session
  | [], msgs, s => (.ok msgs, s)
  | tc :: rest, msgs, s =>
    match execToolCall env user_location tc with
    | .error e => (.error e, s)
    | .ok resp =>
      let s' := updateSessionAfterTool tc.name resp s
      execRound env user_location rest (msgs ++ [toolMsg tc resp]) s'

/-- Outcome of one run of the `chat` endpoint.  `completions` counts the
model-completion requests performed.  `outOfFuel` reports that after
`fuel` follow-up completions the model was still requesting tools — the
source's `while` loop (line 386) has no cap, so the run is still going;
`crashed` is an uncaught exception; `httpError` is a raised
`HTTPException`. -/
inductive ChatOutcome where
  | reply (content : Option String) (completions : Nat)
  | crashed (err : RunError) (completions : Nat)
  | outOfFuel (completions : Nat)
  | httpError (code : Nat)
deriving DecidableEq, Repr

/-- The `while response_message.tool_calls:` loop (lines 386-436).  `fuel`
bounds how many follow-up completions we observe; the source itself has
no such bound. -/
def chatLoop (env : ChatEnv) (user_location : Option Location) :
    Nat → List Msg → ModelResponse → Session → Nat → ChatOutcome × Session
  | fuel, msgs, resp, s, completions =>
    if resp.tool_calls = [] then (.reply resp.content completions, s)
    else
      let msgs1 := msgs ++ [assistantMsg resp]
      match execRound env user_location resp.tool_calls msgs1 s with
      | (.error e, s') => (.crashed e completions, s')
      | (.ok msgs2, s') =>
        match fuel with
        | 0 => (.outOfFuel completions, s')
        | fuel' + 1 =>
          chatLoop env user_location fuel' msgs2 (env.model msgs2) s' (completions + 1)

/-- The session key used by every request (line 351): a fixed string,
independent of the request — there is no conversation identifier. -/
def sessionKey (_ : ChatRequest) : String :=
  "default_user"

/-- The session read for a request after the lazy initialization of
lines 352-354. -/
def storedSession (storage : Storage) : Session :=
  (storage.lookup "default_user").getD {}

/-- Mirrors the `chat` endpoint (lines 344-441): lazy session-entry
creation, the empty-message `HTTPException(400)`, the initial completion,
the tool-call loop, and the write-back of the (in Python, aliased and
mutated in place) session dict. -/
def chat (env : ChatEnv) (fuel : Nat) (req : ChatRequest) (storage : Storage) :
    ChatOutcome × Storage :=
  let session_id := sessionKey req
  let storage1 :=
    if (storage.lookup session_id).isNone then setStore storage session_id {}
    else storage
  let session := (storage1.lookup session_id).getD {}
  if req.message = "" then (.httpError 400, storage1)
  else
    let msgs := initialMessages req session
    let resp := env.model msgs
    let r := chatLoop env req.location fuel msgs resp session 1
    (r.1, setStore storage1 session_id r.2)

/-- Detail record of the spec's `get_entity_detail` contract: a
structured payload; each key is present (`some`) or absent (`none`). -/
structure DetailRecord where
  error : Option String := none
  suggestion : Option String := none
  data_source : Option String := none
  detail : Option String := none
  extraction_error : Option String := none
deriving DecidableEq, Repr

/-- Modelled from the spec: the repository's source no longer contains an
entity-detail operation (main.py line 283's comment records that the old
brewery-details handler was removed), so this follows spec section 4.2:
`get_entity_detail(entity_name)` fails with a structured `NotFoundError`
payload (with a suggestion, and no `data_source` key) when no local
catalog entry matches `entity_name` by case-insensitive substring; on a
match it attempts the live extraction and otherwise falls back to a
model-generated description, recording which source populated the record
(`scraped` vs `model_fallback`) and, on fallback, the extraction error. -/
def get_entity_detail (entity_name : String) (catalog : List Entity)
    (extraction : Except String String) (model_description : String) : DetailRecord :=
  match catalog.find? (fun b => nameMatchesCI b entity_name) with
  | none =>
    { error := some "NotFoundError",
      suggestion := some ("No catalog entry matches " ++ entity_name ++
        "; try the name of a known local brewery.") }
  | some _ =>
    match extraction with
    | .ok text => { detail := some text, data_source := some "scraped" }
    | .error e =>
      { detail := some model_description, data_source := some "model_fallback",
        extraction_error := some e }

/-- The brewery aggregate computed with no external contribution at all:
`get_breweries` with an absent API key, so the places connector returns
`[]` before issuing any request.  Used to state the fallback equality. -/
def breweries_local_only (name : Option String) (loc : Location) (hav : Rat)
    (catalog : List Entity) : List Entity :=
  get_breweries name (some loc) hav catalog none (.error "unavailable")

/-- Specification-side reading of "a fixed curated set filtered by the
given meal tag" (spec section 4.2), written from the spec's words for
comparison with the code: some fixed list of entities of which the
lookup returns exactly those whose meal tag matches the requested one,
and all of them when no meal is requested. -/
def curatedFilteredByMealTag (curated : List Entity) (meal : Option String) :
    List Entity :=
  match meal with
  | none => curated
  | some m => curated.filter (fun e => e.meal = some m)

/-- Model oracle that never requests tools and always answers with fixed
content; used as a concrete instance of C9's theorem. -/
def envPlain : ChatEnv :=
  { model := fun _ => { content := some "Hello from Sam" } }

/-- Local catalog with one entry carrying a taplist URL, used to exercise
the session write path. -/
def sessionCatalog : List Entity :=
  [{ name := some "Starr Hill", taplist_url := some "https://starrhill.com/taps" }]

/-- Model oracle that requests the breweries lookup on the first
completion (two messages: system and user) and replies with plain
content afterwards. -/
def envSession : ChatEnv :=
  { model := fun msgs =>
      if msgs.length = 2 then
        { tool_calls := [{ id := "c1", name := "get_breweries" }] }
      else { content := some "ok" },
    catalog := sessionCatalog }

/-- First conversation: a user asking for breweries. -/
def reqBreweries : ChatRequest := { message := "breweries near me" }

/-- Second, distinct conversation: a different user message. -/
def reqTapThere : ChatRequest := { message := "what is on tap there" }

/-- Model oracle that always requests the unregistered tool
"get_weather". -/
def envUnknownTool : ChatEnv :=
  { model := fun _ => { tool_calls := [{ id := "call_1", name := "get_weather" }] } }

/-- The single registered tool call requested on every completion by the
never-stopping model. -/
def tcLoop : ToolCall :=
  { id := "call_loop", name := "get_breweries" }

/-- A model response that always requests one registered tool call
(the breweries lookup). -/
def respLoopTools : ModelResponse :=
  { tool_calls := [tcLoop] }

/-- Model oracle that requests `respLoopTools` on every completion:
the "model that never stops requesting tools". -/
def envAlwaysTools : ChatEnv :=
  { model := fun _ => respLoopTools }

/-! Helper lemmas about the session store. -/

theorem lookup_setStore_self (st : Storage) (k : String) (v : Session) :
    (setStore st k v).lookup k = some v := by
  induction st with
  | nil => simp [setStore, List.lookup]
  | cons hd tl ih =>
    obtain ⟨k', v'⟩ := hd
    by_cases h : k' = k
    · subst h; simp [setStore, List.lookup]
    · have hbe : (k == k') = false := beq_eq_false_iff_ne.mpr (Ne.symm h)
      simp [setStore, h, List.lookup, hbe, ih]

theorem lookup_setStore_ne (st : Storage) (k k' : String) (v : Session)
    (h : k' ≠ k) : (setStore st k v).lookup k' = st.lookup k' := by
  have hbe : (k' == k) = false := beq_eq_false_iff_ne.mpr h
  induction st with
  | nil => simp [setStore, List.lookup, hbe]
  | cons hd tl ih =>
    obtain ⟨k₀, v₀⟩ := hd
    by_cases h0 : k₀ = k
    · subst h0; simp [setStore, List.lookup, hbe]
    · simp [setStore, h0, List.lookup, ih]

theorem init_session_eq (storage : Storage) :
    ((if (storage.lookup "default_user").isNone then
        setStore storage "default_user" {} else storage).lookup "default_user").getD {} =
      storedSession storage := by
  cases hl : storage.lookup "default_user" with
  | none => simp [storedSession, hl, lookup_setStore_self]
  | some s => simp [storedSession, hl]

/-! Helper lemmas about the substring test. -/

theorem leadsWith_self (l : List Char) : leadsWith l l = true := by
  induction l with
  | nil => rfl
  | cons a as ih => simp [leadsWith, ih]

theorem occursWithin_self (s : List Char) : occursWithin s s = true := by
  cases s with
  | nil => rfl
  | cons c rest => simp [occursWithin, leadsWith_self]

theorem occursWithin_append_left (p s : List Char) :
    occursWithin s (p ++ s) = true := by
  induction p with
  | nil => simpa using occursWithin_self s
  | cons a p' ih => simp [occursWithin, ih]

theorem strContains_append_left (p s : String) :
    strContains (p ++ s) s = true := by
  have : (p ++ s).toList = p.toList ++ s.toList := String.data_append p s
  simp [strContains, this, occursWithin_append_left]

/-- Claim C7: for every input (entity name and URL) and every failure
mode of rendering, extraction, or summarization (any exception `e`
raised inside the `try` block of `get_taplist_summary`), the summarizer
does not propagate the exception: it returns a record with
`status = "error"`, the error detail `str(e)` present under `error`
(the success record omits the key), and a human-readable summary that
contains the given URL, suggesting the user consult it directly. -/
theorem taplist_failure_yields_error_record (brewery url : String) (env : TapEnv)
    (e : String) (h : taplist_attempt brewery env = .error e) :
    get_taplist_summary brewery url env =
      { brewery := brewery, summary := some (taplist_error_message brewery url),
        url := url, status := "error", error := some e } ∧
    strContains (taplist_error_message brewery url) url = true := by
  constructor
  · simp [get_taplist_summary, h]
  · have h2 : taplist_error_message brewery url =
        ("Unable to fetch current tap list for " ++ brewery ++
          ". You might want to check their website directly at ") ++ url := by
      simp [taplist_error_message]
    rw [h2]
    exact strContains_append_left _ url

/-- Concrete check of C7's theorem: a rendering timeout resolves to the
error-shaped record pointing at the URL. -/
theorem taplist_failure_yields_error_record_witness :
    get_taplist_summary "Starr Hill" "https://starrhill.com/taps"
        { launch := .ok (), page_content := .error "Timeout 20000ms exceeded.",
          extract_text := fun t => .ok t, summarize := fun _ => .ok (some "x") } =
      { brewery := "Starr Hill",
        summary := some (taplist_error_message "Starr Hill" "https://starrhill.com/taps"),
        url := "https://starrhill.com/taps", status := "error",
        error := some "Timeout 20000ms exceeded." } ∧
    strContains (taplist_error_message "Starr Hill" "https://starrhill.com/taps")
        "https://starrhill.com/taps" = true :=
  taplist_failure_yields_error_record "Starr Hill" "https://starrhill.com/taps"
    { launch := .ok (), page_content := .error "Timeout 20000ms exceeded.",
      extract_text := fun t => .ok t, summarize := fun _ => .ok (some "x") }
    "Timeout 20000ms exceeded." rfl

/-- Claim C5 (spec-modelled): an entity-detail lookup whose name matches
no catalog entry by case-insensitive substring returns a structured
`NotFoundError` payload — a value, not a raised exception — with the
`suggestion` field present and the `data_source` field absent. -/
theorem get_entity_detail_not_found (entity_name : String) (catalog : List Entity)
    (extraction : Except String String) (desc : String)
    (h : ∀ b ∈ catalog, nameMatchesCI b entity_name = false) :
    (get_entity_detail entity_name catalog extraction desc).error =
        some "NotFoundError" ∧
    (get_entity_detail entity_name catalog extraction desc).suggestion.isSome = true ∧
    (get_entity_detail entity_name catalog extraction desc).data_source = none := by
  have hf : catalog.find? (fun b => nameMatchesCI b entity_name) = none :=
    List.find?_eq_none.mpr (fun b hb => by simp [h b hb])
  simp [get_entity_detail, hf]

/-- Concrete check of C5's theorem: the lookup of an entity absent from a
one-entry catalog yields the NotFoundError payload. -/
theorem get_entity_detail_not_found_witness :
    (get_entity_detail "Tree House" [{ name := some "Starr Hill" }]
        (.error "down") "desc").error = some "NotFoundError" ∧
    (get_entity_detail "Tree House" [{ name := some "Starr Hill" }]
        (.error "down") "desc").suggestion.isSome = true ∧
    (get_entity_detail "Tree House" [{ name := some "Starr Hill" }]
        (.error "down") "desc").data_source = none :=
  get_entity_detail_not_found "Tree House" [{ name := some "Starr Hill" }]
    (.error "down") "desc" (by decide)

/-- Claim C6: the loop's per-tool session update (lines 409-418) stores
the first result's name and URL exactly when the handler is the
breweries lookup and its first ("most relevant") result carries a
present, truthy detail URL; in every other case — a different handler, an
empty result, a first result without a URL (or with an empty one), or a
non-list tool payload — the session is left unchanged. -/
theorem session_update_first_brewery_spec (function_name : String)
    (resp : ToolResponse) (s : Session) :
    (∀ b rest u, function_name = "get_breweries" → resp = .breweries (b :: rest) →
      b.taplist_url = some u → u ≠ "" →
      updateSessionAfterTool function_name resp s =
        { s with last_brewery := some { name := b.name, url := u } }) ∧
    (function_name ≠ "get_breweries" →
      updateSessionAfterTool function_name resp s = s) ∧
    (resp = .breweries [] → updateSessionAfterTool function_name resp s = s) ∧
    (∀ b rest, resp = .breweries (b :: rest) →
      (b.taplist_url = none ∨ b.taplist_url = some "") →
      updateSessionAfterTool function_name resp s = s) ∧
    (∀ t, resp = .taplist t → updateSessionAfterTool function_name resp s = s) ∧
    (∀ items, resp = .restaurants items →
      updateSessionAfterTool function_name resp s = s) := by
  refine ⟨?_, ?_, ?_, ?_, ?_, ?_⟩
  · rintro b rest u hf rfl hurl hne
    subst hf
    simp [updateSessionAfterTool, hurl, hne]
  · intro hf
    simp [updateSessionAfterTool, hf]
  · rintro rfl
    by_cases hf : function_name = "get_breweries" <;>
      simp [updateSessionAfterTool, hf]
  · rintro b rest rfl hurl
    by_cases hf : function_name = "get_breweries" <;>
      rcases hurl with h | h <;> simp [updateSessionAfterTool, hf, h]
  · rintro t rfl
    by_cases hf : function_name = "get_breweries" <;>
      simp [updateSessionAfterTool, hf]
  · rintro items rfl
    by_cases hf : function_name = "get_breweries" <;>
      simp [updateSessionAfterTool, hf]

/-- Concrete check of C6's theorem: a breweries result whose first entry
carries a taplist URL is stored in the session. -/
theorem session_update_first_brewery_spec_witness :
    updateSessionAfterTool "get_breweries"
        (.breweries [{ name := some "Starr Hill",
                       taplist_url := some "https://starrhill.com/taps" }]) {} =
      { last_brewery := some { name := some "Starr Hill",
                               url := "https://starrhill.com/taps" } } :=
  (session_update_first_brewery_spec "get_breweries"
      (.breweries [{ name := some "Starr Hill",
                     taplist_url := some "https://starrhill.com/taps" }]) {}).1
    { name := some "Starr Hill", taplist_url := some "https://starrhill.com/taps" }
    [] "https://starrhill.com/taps" rfl rfl rfl (by decide)

/-- Claim C8: a places response whose status is not "OK" yields zero
results from both connectors rather than a fault, and consequently the
brewery aggregator returns exactly the local-only result and the
restaurant aggregator (which has no local catalog) returns the empty
list, with no exception modelled anywhere on this path. -/
theorem places_non_success_degrades_to_local (api_key : Option String)
    (r : PlacesResponse) (lat lng : Rat) (meal name : Option String)
    (loc : Location) (hav : Rat) (catalog : List Entity)
    (h : r.status ≠ "OK") :
    get_google_places_breweries api_key lat lng (.ok r) = [] ∧
    get_google_places_restaurants api_key lat lng meal (.ok r) = [] ∧
    get_breweries name (some loc) hav catalog api_key (.ok r) =
      breweries_local_only name loc hav catalog ∧
    get_restaurants meal (some loc) api_key (.ok r) = [] := by
  refine ⟨?_, ?_, ?_, ?_⟩
  · cases api_key <;> simp [get_google_places_breweries, h]
  · cases api_key <;> simp [get_google_places_restaurants, h]
  · cases api_key <;>
      simp [get_breweries, breweries_local_only, get_google_places_breweries, h]
  · cases api_key <;> simp [get_restaurants, get_google_places_restaurants, h]

/-- Concrete check of C8's theorem: an OVER_QUERY_LIMIT response leaves
only the local catalog in the brewery aggregate and empties the
restaurant aggregate. -/
theorem places_non_success_degrades_to_local_witness :
    get_google_places_breweries (some "key") 38 (-78)
        (.ok { status := "OVER_QUERY_LIMIT" }) = [] ∧
    get_google_places_restaurants (some "key") 38 (-78) (some "lunch")
        (.ok { status := "OVER_QUERY_LIMIT" }) = [] ∧
    get_breweries none (some { lat := 38, lng := -78 }) 2
        [{ name := some "Starr Hill" }] (some "key")
        (.ok { status := "OVER_QUERY_LIMIT" }) =
      breweries_local_only none { lat := 38, lng := -78 } 2
        [{ name := some "Starr Hill" }] ∧
    get_restaurants (some "lunch") (some { lat := 38, lng := -78 }) (some "key")
        (.ok { status := "OVER_QUERY_LIMIT" }) = [] :=
  places_non_success_degrades_to_local (some "key")
    { status := "OVER_QUERY_LIMIT" } 38 (-78) (some "lunch") none
    { lat := 38, lng := -78 } 2 [{ name := some "Starr Hill" }] (by decide)

/-- Claim C4, counterexample: no fixed curated set can reproduce
`get_restaurants` without a location, because the single entry it
returns echoes the requested meal in its `meal` field — the entry
returned for `meal="lunch"` is not in the set returned with no filter. -/
theorem restaurants_no_location_not_curated :
    ¬ ∃ curated : List Entity, ∀ meal : Option String,
      get_restaurants meal none none (.error "unavailable") =
        curatedFilteredByMealTag curated meal := by
  rintro ⟨curated, hc⟩
  have h0 := hc none
  have h1 := hc (some "lunch")
  rw [show curatedFilteredByMealTag curated none = curated from rfl] at h0
  rw [← h0] at h1
  revert h1
  decide

/-- Claim C4, amended: a restaurants lookup with no location returns the
single fixed error-placeholder entry (name "No location provided",
source "error"), whose `meal` field merely echoes the requested meal tag
(or "general"); no curated restaurant set is consulted, and the
connector oracle is never touched. -/
theorem restaurants_no_location_placeholder (meal : Option String)
    (api_key : Option String) (resp : Except String PlacesResponse) :
    get_restaurants meal none api_key resp =
      [{ name := some "No location provided",
         address := some "Please enable location services to find nearby restaurants",
         rating := some 0,
         meal := some (mealOrGeneral meal),
         source := some "error" }] :=
  rfl

/-- Unfolds one run of `chat` on a non-empty message: the session read is
the stored one, the loop starts from the initial messages with the first
completion, and the final session is written back at the fixed key. -/
theorem chat_of_message_ne (env : ChatEnv) (fuel : Nat) (req : ChatRequest)
    (storage : Storage) (hmsg : req.message ≠ "") :
    chat env fuel req storage =
      ((chatLoop env req.location fuel
          (initialMessages req (storedSession storage))
          (env.model (initialMessages req (storedSession storage)))
          (storedSession storage) 1).1,
        setStore
          (if (storage.lookup "default_user").isNone then
            setStore storage "default_user" {} else storage)
          "default_user"
          (chatLoop env req.location fuel
            (initialMessages req (storedSession storage))
            (env.model (initialMessages req (storedSession storage)))
            (storedSession storage) 1).2) := by
  have hs := init_session_eq storage
  simp only [chat, sessionKey, hmsg, if_false, hs]

/-- Claim C9: when the first completion of a well-formed request carries
no tool calls, the loop body is never entered: the run performs exactly
one completion call and replies with that completion's content verbatim. -/
theorem no_tool_calls_single_completion_reply (env : ChatEnv) (fuel : Nat)
    (req : ChatRequest) (storage : Storage)
    (hmsg : req.message ≠ "")
    (h : (env.model (initialMessages req (storedSession storage))).tool_calls = []) :
    (chat env fuel req storage).1 =
      .reply (env.model (initialMessages req (storedSession storage))).content 1 := by
  rw [chat_of_message_ne env fuel req storage hmsg]
  simp [chatLoop, h]

/-- Concrete check of C9's theorem: a single completion without tool
calls is returned verbatim after exactly one model call. -/
theorem no_tool_calls_single_completion_reply_witness :
    (chat envPlain 3 { message := "hi" } []).1 = .reply (some "Hello from Sam") 1 :=
  no_tool_calls_single_completion_reply envPlain 3 { message := "hi" } []
    (by decide) rfl

/-- Claim C10: a chat request whose `message` is empty is rejected with a
client error (HTTP 400), but the session-store initialization of lines
352-354 has already run: when the fixed session key had no entry, the
rejected request has inserted an empty one — the error path mutates the
process-wide store. -/
theorem empty_message_rejected_after_session_insert (env : ChatEnv) (fuel : Nat)
    (loc : Option Location) (storage : Storage)
    (h : storage.lookup "default_user" = none) :
    (chat env fuel { message := "", location := loc } storage).1 = .httpError 400 ∧
    (chat env fuel { message := "", location := loc } storage).2.lookup
        "default_user" = some {} := by
  constructor
  · simp [chat, sessionKey]
  · simp [chat, sessionKey, h, lookup_setStore_self]

/-- Concrete check of C10's theorem: the empty-message rejection inserts
the session entry into an initially empty store. -/
theorem empty_message_rejected_after_session_insert_witness :
    (chat envPlain 3 { message := "" } []).1 = .httpError 400 ∧
    (chat envPlain 3 { message := "" } []).2.lookup "default_user" = some {} :=
  empty_message_rejected_after_session_insert envPlain 3 none [] rfl

/-- Claim C3, amended: session state is not keyed by any conversation
identifier — the request carries none and line 351 fixes the key to the
single string "default_user" for every request, so all conversations
share one session; apart from that one shared key, a run never touches
the store. -/
theorem session_store_single_fixed_key (req : ChatRequest) (env : ChatEnv)
    (fuel : Nat) (storage : Storage) (k : String) (h : k ≠ "default_user") :
    sessionKey req = "default_user" ∧
    ((chat env fuel req storage).2).lookup k = storage.lookup k := by
  refine ⟨rfl, ?_⟩
  have h1 : (if (storage.lookup "default_user").isNone then
      setStore storage "default_user" {} else storage).lookup k =
      storage.lookup k := by
    split
    · exact lookup_setStore_ne storage "default_user" k {} h
    · rfl
  by_cases hm : req.message = ""
  · simpa [chat, sessionKey, hm] using h1
  · rw [chat_of_message_ne env fuel req storage hm]
    rw [lookup_setStore_ne _ "default_user" k _ h]
    exact h1

/-- Concrete check of C3's amended theorem: an unrelated key is never
read or written by a run. -/
theorem session_store_single_fixed_key_witness :
    sessionKey { message := "hi" } = "default_user" ∧
    ((chat envPlain 3 { message := "hi" }
        [("other_conversation", {})]).2).lookup "other_conversation" =
      [(("other_conversation" : String), ({} : Session))].lookup
        "other_conversation" :=
  session_store_single_fixed_key { message := "hi" } envPlain 3
    [("other_conversation", {})] "other_conversation" (by decide)

/-- Claim C3, counterexample: two plainly distinct requests (distinct
conversations) share the one fixed session key, and the second run's
system prompt observes the `last_entity` ("Starr Hill") written by the
first run — session state is not isolated per conversation identifier. -/
theorem session_state_shared_across_conversations :
    sessionKey reqBreweries = sessionKey reqTapThere ∧
    reqBreweries ≠ reqTapThere ∧
    strContains
        (systemContent reqTapThere.location
          (storedSession (chat envSession 5 reqBreweries []).2))
        "Starr Hill" = true := by
  refine ⟨rfl, by decide, by decide⟩

/-- Claim C1, amended: a model-requested tool call whose name is not in
the `available_functions` registry raises an uncaught `KeyError` at the
dictionary lookup of line 396, aborting the run before any ToolResult
for that call is produced; nothing reports the failure back to the
model. -/
theorem unknown_tool_name_aborts_run (env : ChatEnv) (fuel : Nat)
    (req : ChatRequest) (storage : Storage) (tc : ToolCall) (rest : List ToolCall)
    (hmsg : req.message ≠ "")
    (hcalls : (env.model (initialMessages req (storedSession storage))).tool_calls =
      tc :: rest)
    (hname : tc.name ∉ available_function_names) :
    (chat env fuel req storage).1 = .crashed (.keyError tc.name) 1 := by
  rw [chat_of_message_ne env fuel req storage hmsg]
  rw [chatLoop.eq_def]
  simp [hcalls, execRound, execToolCall, hname]

/-- Claim C1, counterexample: a request for the unregistered tool
"get_weather" does not resolve to an error-payload ToolResult — the run
crashes with the `KeyError`, contradicting the claim that the loop never
crashes on an unknown tool name. -/
theorem unknown_tool_crashes_not_reported :
    (chat envUnknownTool 5 { message := "how is the weather" } []).1 =
      .crashed (.keyError "get_weather") 1 := by
  decide

/-- Concrete check of C1's amended theorem. -/
theorem unknown_tool_name_aborts_run_witness :
    (chat envUnknownTool 4 { message := "hello" } []).1 =
      .crashed (.keyError "get_weather") 1 :=
  unknown_tool_name_aborts_run envUnknownTool 4 { message := "hello" } []
    { id := "call_1", name := "get_weather" } [] (by decide) rfl (by decide)

/-- Under `envAlwaysTools`, one loop iteration executes its (successful)
breweries call, appends the two turns, and re-enters the loop with one
less fuel — or reports the out-of-fuel cut. -/
theorem chatLoop_always_tools_step (loc : Option Location) (fuel : Nat)
    (msgs : List Msg) (s : Session) (c : Nat) :
    chatLoop envAlwaysTools loc fuel msgs respLoopTools s c =
      match fuel with
      | 0 => (.outOfFuel c, s)
      | fuel' + 1 =>
        chatLoop envAlwaysTools loc fuel'
          (msgs ++ [assistantMsg respLoopTools] ++ [toolMsg tcLoop (.breweries [])])
          respLoopTools s (c + 1) := by
  cases loc <;> cases fuel <;> rfl

/-- Under `envAlwaysTools`, the loop is still requesting tools after all
`fuel` observed follow-up completions, whatever the starting state. -/
theorem chatLoop_always_tools (loc : Option Location) (fuel : Nat) :
    ∀ (msgs : List Msg) (s : Session) (c : Nat),
      (chatLoop envAlwaysTools loc fuel msgs respLoopTools s c).1 =
        .outOfFuel (c + fuel) := by
  induction fuel with
  | zero =>
    intro msgs s c
    rw [chatLoop_always_tools_step]
    simp
  | succ n ih =>
    intro msgs s c
    rw [chatLoop_always_tools_step]
    rw [ih]
    have hn : c + 1 + n = c + (n + 1) := by omega
    rw [hn]

/-- Claim C2, amended: the orchestration loop has no round cap — for a
model that requests a registered tool call on every completion, after
any number `fuel` of follow-up completions the run has performed
`fuel + 1` completion calls and is still inside the loop (`outOfFuel`
observation cut), never reaching any reply, degraded or otherwise. -/
theorem chat_without_round_cap_never_replies (fuel : Nat) (req : ChatRequest)
    (storage : Storage) (hmsg : req.message ≠ "") :
    (chat envAlwaysTools fuel req storage).1 = .outOfFuel (fuel + 1) := by
  rw [chat_of_message_ne envAlwaysTools fuel req storage hmsg]
  rw [show envAlwaysTools.model (initialMessages req (storedSession storage)) =
    respLoopTools from rfl]
  rw [chatLoop_always_tools req.location fuel
    (initialMessages req (storedSession storage)) (storedSession storage) 1]
  rw [Nat.add_comm]

/-- Concrete check of C2's amended theorem. -/
theorem chat_without_round_cap_never_replies_witness :
    (chat envAlwaysTools 7 { message := "beer me" } []).1 = .outOfFuel 8 :=
  chat_without_round_cap_never_replies 7 { message := "beer me" } [] (by decide)

/-- Claim C2, counterexample: with the model requesting tools on every
completion, after 11 follow-up rounds — beyond any 5-10 round cap the
spec stipulates — the run has produced no reply at all (the outcome is
the out-of-fuel observation cut, not a degraded reply): the loop is
unbounded. -/
theorem round_cap_never_enforced :
    (chat envAlwaysTools 11 { message := "breweries near me" } []).1 =
      .outOfFuel 12 := by
  decide

/-- Concrete check of C4's amended theorem: a dinner request without a
location yields the single placeholder entry echoing "dinner". -/
theorem restaurants_no_location_placeholder_witness :
    get_restaurants (some "dinner") none none (.error "unavailable") =
      [{ name := some "No location provided",
         address := some "Please enable location services to find nearby restaurants",
         rating := some 0,
         meal := some (mealOrGeneral (some "dinner")),
         source := some "error" }] :=
  restaurants_no_location_placeholder (some "dinner") none (.error "unavailable")
